import Mathlib

/-!
Shallow embedding of the synchronization / persistence slice of the
parking-impact interview application (App component, `db.ts`,
`InterviewPage` submission logic), together with theorems settling the
specification claims about it.

Conventions of the embedding:
* TypeScript `number` is embedded as `ℚ` (the cost formulas are exact
  rational arithmetic); `interviewDateTime` is embedded as the integer
  timestamp `new Date(s).getTime()` since only that value is ever used
  (for sorting).
* Asynchronous I/O is embedded by passing the outcome of each external
  interaction (HTTP fetch, IndexedDB request) as an explicit argument;
  a rejected promise is an `Except.error` result.
* React state setters become functional updates of an explicit
  `AppState`; `localStorage` is the `persistedMode`/`persistedUrl` pair;
  the IndexedDB object store is the `localStore` list (keyed by `id`);
  the remote bin content is the `remote` list, updated when a write
  request is delivered with a success status.
* JavaScript rejection values are either `Error` objects or plain
  strings (`db.ts` rejects with strings); `AppError` keeps the
  distinction because `error instanceof Error` branches on it.
-/

/-- `Location` enum of `types.ts`. -/
inductive Location
  | DARMIPARK
  | PALAPARK
deriving DecidableEq, Repr

/-- `TravelMode` enum of `types.ts`. -/
inductive TravelMode
  | NONE
  | CAR
  | TPL
  | ALTRO
deriving DecidableEq, Repr

/-- `PaymentType` enum of `types.ts`. -/
inductive PaymentType
  | NONE
  | TICKET
  | SUBSCRIPTION
deriving DecidableEq, Repr

/-- `CostFrequency` enum of `types.ts`. -/
inductive CostFrequency
  | DAILY
  | WEEKLY
  | MONTHLY
deriving DecidableEq, Repr

/-- `InterviewData` of `types.ts`.  `previousWeeklyCost` is embedded as `ℚ`
and `interviewDateTime` as the epoch-milliseconds value
`new Date(interviewDateTime).getTime()`. -/
structure InterviewData where
  id : String
  location : Location
  previousTravelMode : TravelMode
  previousPaymentType : PaymentType
  previousWeeklyCost : ℚ
  usesParkAndRide : Bool
  interviewDateTime : Int
deriving DecidableEq, Repr

/-- The comparator of `sortInterviews`: `a` may precede `b` exactly when
`new Date(b.interviewDateTime).getTime() - new Date(a.interviewDateTime).getTime() <= 0`,
i.e. descending by timestamp. -/
def interviewGE (a b : InterviewData) : Prop :=
  b.interviewDateTime ≤ a.interviewDateTime

instance : DecidableRel interviewGE := fun a b =>
  inferInstanceAs (Decidable (b.interviewDateTime ≤ a.interviewDateTime))

instance : IsTotal InterviewData interviewGE :=
  ⟨fun a b => (le_total b.interviewDateTime a.interviewDateTime).elim Or.inl Or.inr⟩

instance : IsTrans InterviewData interviewGE :=
  ⟨fun _ _ _ hab hbc => le_trans hbc hab⟩

/-- `sortInterviews` of the App component:
`data.sort((a, b) => time(b) - time(a))`.  JavaScript `Array.prototype.sort`
is guaranteed stable, so it is embedded as the stable insertion sort with
the descending-by-timestamp comparator. -/
def sortInterviews (data : List InterviewData) : List InterviewData :=
  List.insertionSort interviewGE data

/-- A JavaScript rejection value: either an `Error` object carrying a
message, or a plain non-`Error` value (`db.ts` rejects with plain
strings).  The App code branches on `error instanceof Error`. -/
inductive AppError
  | err (msg : String)
  | strRejection (msg : String)
deriving DecidableEq, Repr

/-- `error instanceof Error ? error.message : "Errore sconosciuto"`. -/
def errorMessage : AppError → String
  | AppError.err m => m
  | AppError.strRejection _ => "Errore sconosciuto"

/-- Sync status of the App component. -/
inductive SyncStatus
  | idle
  | connecting
  | syncing
  | connected
  | error
deriving DecidableEq, Repr

/-- Session mode of the App component. -/
inductive SessionMode
  | welcome
  | localMode
  | online
deriving DecidableEq, Repr

/-- The full mutable state of the App component: React state hooks,
`localStorage` entries, the IndexedDB object store content, and the
content of the remote kvdb bin. -/
structure AppState where
  sessionMode : SessionMode
  interviews : List InterviewData
  syncUrl : Option String
  syncStatus : SyncStatus
  syncError : Option String
  etag : Option String
  isLoading : Bool
  persistedMode : Option String
  persistedUrl : Option String
  localStore : List InterviewData
  remote : List InterviewData
deriving DecidableEq, Repr

/-- Environment outcome of one HTTP `fetch`: either the promise rejects
at the network level, or a response arrives with a status code, an
optional `ETag` header and a body. -/
inductive BinPayload
  | arr (records : List InterviewData)
  | nonArray
  | malformed
deriving DecidableEq, Repr

/-- Outcome of one `fetch` call, supplied by the environment. -/
inductive FetchOutcome
  | response (status : Nat) (etagHdr : Option String) (body : BinPayload)
  | netFail
deriving DecidableEq, Repr

/-- `Response.ok`: status in the inclusive range 200..299. -/
def httpOk (status : Nat) : Bool :=
  decide (200 ≤ status) && decide (status ≤ 299)

/-- Environment outcomes of the IndexedDB requests issued by one db.ts
operation: whether the `clear` request errors, and whether an `add`
request errors for an engine-level reason (for example quota), beyond
the deterministic duplicate-key failure. -/
structure DbEnv where
  clearFails : Bool
  insertFails : Bool
deriving DecidableEq, Repr

/-- Whether the object store already holds a record under key `i`
(`keyPath` is `id`). -/
def hasId (store : List InterviewData) (i : String) : Bool :=
  store.any (fun r => r.id == i)

/-- Whether the list holds two records with the same `id` (so that the
second `IDBObjectStore.add` of that key fails with `ConstraintError`). -/
def hasDupIds : List InterviewData → Bool
  | [] => false
  | r :: rs => rs.any (fun x => x.id == r.id) || hasDupIds rs

/-- `addInterviewDB` of `db.ts`: `store.add(interview)` rejects (with a
plain string) when the key already exists, otherwise the record is
appended to the store. -/
def addInterviewDB (store : List InterviewData) (r : InterviewData) :
    Except AppError (List InterviewData) :=
  if hasId store r.id then
    Except.error (AppError.strRejection ("Could not add interview to the database."))
  else
    Except.ok (store ++ [r])

/-- `clearAllInterviewsDB` of `db.ts`: the `clear` request either errors
(rejecting with a plain string, store unchanged) or empties the store. -/
def clearAllInterviewsDB (store : List InterviewData) (env : DbEnv) :
    List InterviewData × Except AppError Unit :=
  if env.clearFails then
    (store, Except.error (AppError.strRejection ("Could not clear interviews from the database.")))
  else
    ([], Except.ok ())

/-- `replaceInterviewsDB` of `db.ts`.  One readwrite transaction issues a
`clear` and then one `add` per record:
* if the `clear` request errors, the transaction is aborted and the
  promise rejects with the clear message, store unchanged;
* if the list is empty, the transaction completes and resolves with an
  empty store;
* otherwise, if any `add` request errors (duplicate key within the list,
  or an engine-level failure), the unhandled request error bubbles to
  `transaction.onerror`, which rejects with the transaction message, and
  the aborted transaction rolls every change back (store unchanged);
* otherwise the transaction completes and the store holds exactly the
  given records. -/
def replaceInterviewsDB (store : List InterviewData) (interviews : List InterviewData)
    (env : DbEnv) : List InterviewData × Except AppError Unit :=
  if env.clearFails then
    (store, Except.error (AppError.strRejection ("Could not clear interviews from the database.")))
  else if interviews.isEmpty then
    ([], Except.ok ())
  else if env.insertFails || hasDupIds interviews then
    (store, Except.error (AppError.strRejection ("Transaction failed while replacing interviews.")))
  else
    (interviews, Except.ok ())

deriving instance DecidableEq for Except

/-- One HTTP request as observed on the wire (method and URL), recorded
so that theorems can speak about whether a network call was made. -/
structure Request where
  method : String
  url : String
deriving DecidableEq, Repr

/-- Result of one App operation: the state afterwards, the settled value
of the returned promise, and the network requests issued. -/
structure OpResult where
  state : AppState
  outcome : Except AppError Unit
  requests : List Request
deriving DecidableEq, Repr

/-- `const newEtag = response.headers.get("ETag"); if (newEtag) setEtag(newEtag);` -/
def updateEtag (s : AppState) (etagHdr : Option String) : AppState :=
  match etagHdr with
  | some t => { s with etag := some t }
  | none => s

/-- JavaScript truthiness of `syncUrl : string | null`. -/
def truthy : Option String → Bool
  | none => false
  | some u => !(u == "")

/-- `getBinData` of the App component: fetch the bin; throw on a
non-success status; store the `ETag` header if present; parse the JSON
body (a rejected parse propagates); return the parsed value if it is an
array and `[]` otherwise. -/
def getBinData (s : AppState) (url : String) (out : FetchOutcome) :
    AppState × Except AppError (List InterviewData) × List Request :=
  match out with
  | FetchOutcome.netFail =>
      (s, Except.error (AppError.err ("Failed to fetch")), [⟨"GET", url⟩])
  | FetchOutcome.response status etagHdr body =>
      if httpOk status then
        let s1 := updateEtag s etagHdr
        match body with
        | BinPayload.malformed =>
            (s1, Except.error (AppError.err ("Unexpected token in JSON")), [⟨"GET", url⟩])
        | BinPayload.arr records => (s1, Except.ok records, [⟨"GET", url⟩])
        | BinPayload.nonArray => (s1, Except.ok [], [⟨"GET", url⟩])
      else
        (s, Except.error (AppError.err ("Impossibile recuperare i dati. (HTTP " ++ toString status ++ ")")),
          [⟨"GET", url⟩])

/-- The guard `url.startsWith("https://kvdb.io/")` of `handleConnectSession`,
embedded on the character list so that it evaluates by kernel reduction. -/
def startsWithKvdb (url : String) : Bool :=
  url.data.take (("https://kvdb.io/").data.length) == ("https://kvdb.io/").data

/-- The catch branch of `handleConnectSession`:
`error instanceof Error ? "URL non valido o sessione non trovata. " + error.message : "Errore sconosciuto"`. -/
def connectErrMsg : AppError → String
  | AppError.err m => "URL non valido o sessione non trovata. " ++ m
  | AppError.strRejection _ => "Errore sconosciuto"

/-- `handleConnectSession(url, shouldConfirm)` of the App component.
`out` is the outcome of the single `fetch` inside `getBinData`;
`confirmed` is the value `window.confirm` would return; `env` drives the
IndexedDB requests of `replaceInterviewsDB`. -/
def handleConnectSession (s : AppState) (url : String) (shouldConfirm : Bool)
    (out : FetchOutcome) (confirmed : Bool) (env : DbEnv) : OpResult :=
  if !(startsWithKvdb url) then
    ⟨{ s with syncError := some ("URL non valido. Assicurati che inizi con https: kvdb.io.") },
      Except.error (AppError.err ("URL non valido.")), []⟩
  else
    let s1 := { s with syncStatus := SyncStatus.connecting, syncError := none, isLoading := true }
    match getBinData s1 url out with
    | (s2, Except.error e, reqs) =>
        ⟨{ s2 with syncStatus := SyncStatus.error, syncError := some (connectErrMsg e),
                   isLoading := false },
          Except.error e, reqs⟩
    | (s2, Except.ok cloudData, reqs) =>
        if !shouldConfirm || confirmed then
          let sorted := sortInterviews cloudData
          let s3 := { s2 with persistedMode := some ("online"), persistedUrl := some url,
                              syncUrl := some url, interviews := sorted }
          match replaceInterviewsDB s3.localStore sorted env with
          | (st, Except.ok _) =>
              ⟨{ s3 with localStore := st, sessionMode := SessionMode.online,
                         syncStatus := SyncStatus.connected, isLoading := false },
                Except.ok (), reqs⟩
          | (st, Except.error e) =>
              ⟨{ s3 with localStore := st, syncStatus := SyncStatus.error,
                         syncError := some (connectErrMsg e), isLoading := false },
                Except.error e, reqs⟩
        else
          ⟨{ s2 with syncStatus := SyncStatus.idle, isLoading := false }, Except.ok (), reqs⟩

/-- The local-only tail of `addInterview`: `await addInterviewDB(interview)`
with no network involvement. -/
def addInterviewLocalPath (s : AppState) (interview : InterviewData) : OpResult :=
  match addInterviewDB s.localStore interview with
  | Except.ok st => ⟨{ s with localStore := st }, Except.ok (), []⟩
  | Except.error e => ⟨s, Except.error e, []⟩

/-- The error message built by the catch branch of `addInterview`. -/
def addFailMsg (e : AppError) : String :=
  "Sincronizzazione fallita: " ++ errorMessage e ++ ". La modifica e salvata solo localmente."

/-- The catch branch of `addInterview` reached with rejection value `e`:
status becomes `error`, the message is surfaced, the record is saved
locally (`await addInterviewDB(interview)` — whose own rejection, if any,
replaces `e` as the settled value), and the error is re-thrown. -/
def addInterviewCatch (s : AppState) (interview : InterviewData) (e : AppError)
    (req : Request) : OpResult :=
  let s1 := { s with syncStatus := SyncStatus.error, syncError := some (addFailMsg e) }
  match addInterviewDB s1.localStore interview with
  | Except.ok st => ⟨{ s1 with localStore := st }, Except.error e, [req]⟩
  | Except.error e2 => ⟨s1, Except.error e2, [req]⟩

/-- The shared-session branch of `addInterview`: status `syncing`, PATCH
the record to the bin, and on a success status save locally, record the
`ETag` header and set status `connected`; any throw lands in the catch
branch. -/
def addInterviewSharedPath (s : AppState) (url : String) (interview : InterviewData)
    (out : FetchOutcome) : OpResult :=
  let s1 := { s with syncStatus := SyncStatus.syncing }
  let req : Request := ⟨"PATCH", url⟩
  match out with
  | FetchOutcome.netFail =>
      addInterviewCatch s1 interview (AppError.err ("Failed to fetch")) req
  | FetchOutcome.response status etagHdr _ =>
      if httpOk status then
        let s2 := { s1 with remote := s1.remote ++ [interview] }
        match addInterviewDB s2.localStore interview with
        | Except.ok st =>
            let s3 := updateEtag { s2 with localStore := st } etagHdr
            ⟨{ s3 with syncStatus := SyncStatus.connected }, Except.ok (), [req]⟩
        | Except.error e =>
            addInterviewCatch s2 interview e req
      else
        addInterviewCatch s1 interview
          (AppError.err ("Sincronizzazione fallita. (HTTP " ++ toString status ++ ")")) req

/-- `addInterview` of the App component: optimistic sorted insertion into
the in-memory list, then the shared path (when mode is online and
`syncUrl` is truthy) or the plain local write. -/
def addInterview (s : AppState) (interview : InterviewData) (out : FetchOutcome) : OpResult :=
  let s1 := { s with interviews := sortInterviews (s.interviews ++ [interview]) }
  if s1.sessionMode = SessionMode.online then
    match s1.syncUrl with
    | some url =>
        if url = "" then addInterviewLocalPath s1 interview
        else addInterviewSharedPath s1 url interview out
    | none => addInterviewLocalPath s1 interview
  else
    addInterviewLocalPath s1 interview

/-- The local tail of `clearInterviews`: `await clearAllInterviewsDB()`
then `setInterviews([])` (skipped when the clear rejects). -/
def clearInterviewsLocalTail (s : AppState) (env : DbEnv) : AppState × Except AppError Unit :=
  match clearAllInterviewsDB s.localStore env with
  | (st, Except.ok _) => ({ s with localStore := st, interviews := [] }, Except.ok ())
  | (st, Except.error e) => ({ s with localStore := st }, Except.error e)

/-- `clearInterviews` of the App component: when mode is online and the
URL truthy, `await fetch(syncUrl, POST "[]")` — the response is never
inspected (any status proceeds; the bin is emptied when the server
applies the overwrite, i.e. on a success status), but a network-level
rejection propagates and aborts the operation before any local change.
Then clear the store and the in-memory list. -/
def clearInterviews (s : AppState) (out : FetchOutcome) (env : DbEnv) :
    AppState × Except AppError Unit :=
  if s.sessionMode = SessionMode.online then
    match s.syncUrl with
    | some url =>
        if url = "" then clearInterviewsLocalTail s env
        else
          match out with
          | FetchOutcome.netFail => (s, Except.error (AppError.err ("Failed to fetch")))
          | FetchOutcome.response status _ _ =>
              clearInterviewsLocalTail (if httpOk status then { s with remote := [] } else s) env
    | none => clearInterviewsLocalTail s env
  else
    clearInterviewsLocalTail s env

/-- The local tail of `replaceInterviews`:
`await replaceInterviewsDB(sortedData)` then `setInterviews(sortedData)`
(skipped when the replace rejects). -/
def replaceInterviewsLocalTail (s : AppState) (sorted : List InterviewData) (env : DbEnv) :
    AppState × Except AppError Unit :=
  match replaceInterviewsDB s.localStore sorted env with
  | (st, Except.ok _) => ({ s with localStore := st, interviews := sorted }, Except.ok ())
  | (st, Except.error e) => ({ s with localStore := st }, Except.error e)

/-- `replaceInterviews` of the App component: sort the new list; when mode
is online and the URL truthy, POST the full sorted array (a network-level
rejection propagates; the status is never checked; the `ETag` header is
recorded when present; the bin content becomes the sorted array when the
server applies the overwrite, i.e. on a success status); then overwrite
the store and the in-memory list. -/
def replaceInterviews (s : AppState) (newInterviews : List InterviewData)
    (out : FetchOutcome) (env : DbEnv) : AppState × Except AppError Unit :=
  let sorted := sortInterviews newInterviews
  if s.sessionMode = SessionMode.online then
    match s.syncUrl with
    | some url =>
        if url = "" then replaceInterviewsLocalTail s sorted env
        else
          match out with
          | FetchOutcome.netFail => (s, Except.error (AppError.err ("Failed to fetch")))
          | FetchOutcome.response status etagHdr _ =>
              let s1 := if httpOk status then { s with remote := sorted } else s
              replaceInterviewsLocalTail (updateEtag s1 etagHdr) sorted env
    | none => replaceInterviewsLocalTail s sorted env
  else
    replaceInterviewsLocalTail s sorted env

/-- `normalizeCostToWeekly` of `InterviewPage`. -/
def normalizeCostToWeekly (costValue : ℚ) (frequency : CostFrequency) : ℚ :=
  match frequency with
  | CostFrequency.DAILY => costValue * 5
  | CostFrequency.WEEKLY => costValue
  | CostFrequency.MONTHLY => costValue * 12 / 52

/-- The record-building part of `handleSubmit` of `InterviewPage`.
`cost` is the result of `parseFloat(cost.replace(",", "."))`, `none`
when it is `NaN`.  Returns `none` when a validation step rejects the
submission, otherwise the `InterviewData` handed to `addInterview`. -/
def handleSubmit (location : Option Location) (previousTravelMode : TravelMode)
    (previousPaymentType : PaymentType) (cost : Option ℚ) (costFrequency : CostFrequency)
    (usesParkAndRide : Bool) (newId : String) (now : Int) : Option InterviewData :=
  match location with
  | none => none
  | some loc =>
    if previousTravelMode = TravelMode.NONE then none
    else if previousTravelMode ≠ TravelMode.ALTRO then
      match cost with
      | none => none
      | some costValue =>
        if costValue < 0 then none
        else if previousPaymentType = PaymentType.NONE then none
        else
          some { id := newId, location := loc, previousTravelMode := previousTravelMode,
                 previousPaymentType := previousPaymentType,
                 previousWeeklyCost := normalizeCostToWeekly costValue costFrequency,
                 usesParkAndRide := usesParkAndRide, interviewDateTime := now }
    else
      some { id := newId, location := loc, previousTravelMode := previousTravelMode,
             previousPaymentType := PaymentType.NONE, previousWeeklyCost := 0,
             usesParkAndRide := usesParkAndRide, interviewDateTime := now }

/-- Sorting is a permutation, so membership is preserved. -/
theorem mem_sortInterviews {r : InterviewData} {l : List InterviewData} :
    r ∈ sortInterviews l ↔ r ∈ l :=
  (List.perm_insertionSort interviewGE l).mem_iff

/-- Sample record used by concrete witnesses. -/
def sampleRecord : InterviewData :=
  ⟨"a", Location.DARMIPARK, TravelMode.CAR, PaymentType.TICKET, 10, true, 100⟩

/-- A second sample record with a distinct id and a later timestamp. -/
def sampleRecord2 : InterviewData :=
  ⟨"b", Location.PALAPARK, TravelMode.TPL, PaymentType.SUBSCRIPTION, 5, false, 200⟩

/-- A connected shared-session state used by concrete witnesses. -/
def baseState : AppState :=
  { sessionMode := SessionMode.online, interviews := [sampleRecord],
    syncUrl := some ("https://kvdb.io/bin1"), syncStatus := SyncStatus.connected,
    syncError := none, etag := none, isLoading := false,
    persistedMode := some ("online"), persistedUrl := some ("https://kvdb.io/bin1"),
    localStore := [sampleRecord], remote := [sampleRecord] }

/-- An IndexedDB environment in which every request succeeds. -/
def dbOk : DbEnv := ⟨false, false⟩

/-- C7: for every Dataset `D`, `sortInterviews D` is ordered by
`interviewDateTime` descending, and applying the sort twice yields the
same sequence as applying it once, equal timestamps included. -/
theorem C7_sort_descending_idempotent (D : List InterviewData) :
    List.Sorted interviewGE (sortInterviews D) ∧
      sortInterviews (sortInterviews D) = sortInterviews D :=
  ⟨List.sorted_insertionSort interviewGE D,
    List.Sorted.insertionSort_eq (List.sorted_insertionSort interviewGE D)⟩

/-- C9: for every non-negative cost `c` and reporting frequency, a record
accepted by `handleSubmit` (on the cost-bearing path, travel mode not
ALTRO) stores as `previousWeeklyCost` exactly the weekly normalization of
`c` — `c * 5` daily, `c` weekly, `c * 12 / 52` monthly — and that value
is non-negative. -/
theorem C9_weekly_cost_normalized (loc : Location) (tm : TravelMode) (pt : PaymentType)
    (c : ℚ) (freq : CostFrequency) (upr : Bool) (i : String) (now : Int)
    (iv : InterviewData) (hc : 0 ≤ c) (halt : tm ≠ TravelMode.ALTRO)
    (hsub : handleSubmit (some loc) tm pt (some c) freq upr i now = some iv) :
    iv.previousWeeklyCost =
      (match freq with
        | CostFrequency.DAILY => c * 5
        | CostFrequency.WEEKLY => c
        | CostFrequency.MONTHLY => c * 12 / 52) ∧
    0 ≤ iv.previousWeeklyCost := by
  by_cases htm : tm = TravelMode.NONE
  · simp [handleSubmit, htm] at hsub
  · have hlt : ¬ c < 0 := not_lt.mpr hc
    by_cases hpt : pt = PaymentType.NONE
    · simp [handleSubmit, htm, halt, hlt, hpt] at hsub
    · simp [handleSubmit, htm, halt, hlt, hpt] at hsub
      subst hsub
      cases freq with
      | DAILY =>
          exact ⟨rfl, mul_nonneg hc (by norm_num)⟩
      | WEEKLY =>
          exact ⟨rfl, hc⟩
      | MONTHLY =>
          exact ⟨rfl, div_nonneg (mul_nonneg hc (by norm_num)) (by norm_num)⟩

/-- The record `handleSubmit` builds for cost 10 reported monthly. -/
def monthlySubmitted : InterviewData :=
  ⟨"w9", Location.DARMIPARK, TravelMode.CAR, PaymentType.TICKET, 10 * 12 / 52, true, 0⟩

/-- Witness for C9 at cost 10, frequency monthly. -/
theorem C9_weekly_cost_normalized_witness :
    monthlySubmitted.previousWeeklyCost =
      (match CostFrequency.MONTHLY with
        | CostFrequency.DAILY => (10 : ℚ) * 5
        | CostFrequency.WEEKLY => (10 : ℚ)
        | CostFrequency.MONTHLY => (10 : ℚ) * 12 / 52) ∧
    0 ≤ monthlySubmitted.previousWeeklyCost :=
  C9_weekly_cost_normalized Location.DARMIPARK TravelMode.CAR PaymentType.TICKET 10
    CostFrequency.MONTHLY true "w9" 0 monthlySubmitted (by norm_num) (by decide)
    (by
      have h10 : ¬ (10 : ℚ) < 0 := by norm_num
      simp [handleSubmit, normalizeCostToWeekly, monthlySubmitted, h10])

/-- C3 counterexample: a successful fetch whose JSON payload is not an
array resolves with the empty array — it does not fail with a parse
error as the claim states. -/
theorem C3_nonarray_succeeds_cex :
    (getBinData baseState ("https://kvdb.io/bin1")
        (FetchOutcome.response 200 none BinPayload.nonArray)).2.1 = Except.ok [] := by
  decide

/-- C3 amended: on a success status with a non-array JSON payload,
`getBinData` resolves with `[]` (a substitute value) instead of failing. -/
theorem C3_nonarray_returns_empty (s : AppState) (url : String) (status : Nat)
    (etagHdr : Option String) (h : httpOk status = true) :
    (getBinData s url (FetchOutcome.response status etagHdr BinPayload.nonArray)).2.1
      = Except.ok [] := by
  simp [getBinData, h]

/-- Witness for the amended C3. -/
theorem C3_nonarray_returns_empty_witness :
    (getBinData baseState ("https://kvdb.io/bin1")
        (FetchOutcome.response 204 (some ("W/x")) BinPayload.nonArray)).2.1 = Except.ok [] :=
  C3_nonarray_returns_empty baseState ("https://kvdb.io/bin1") 204 (some ("W/x")) (by decide)

/-- The PATCH append of `addInterview` fails: either the fetch rejects at
the network level or the response has a non-success status. -/
def remoteAppendFails : FetchOutcome → Bool
  | FetchOutcome.netFail => true
  | FetchOutcome.response status _ _ => !httpOk status

/-- C1: adding a record in a shared session whose remote PATCH fails
leaves the record committed to the Local Store, the sync status on
`error`, and the record still present in the in-memory dataset (the
optimistic insertion is not rolled back).  The record id is assumed
fresh so the local write itself succeeds. -/
theorem C1_add_remote_failure_keeps_record (s : AppState) (r : InterviewData)
    (out : FetchOutcome) (u : String)
    (hmode : s.sessionMode = SessionMode.online)
    (hurl : s.syncUrl = some u) (hu : u ≠ "")
    (hfail : remoteAppendFails out = true)
    (hfresh : hasId s.localStore r.id = false) :
    r ∈ (addInterview s r out).state.localStore ∧
    (addInterview s r out).state.syncStatus = SyncStatus.error ∧
    r ∈ (addInterview s r out).state.interviews := by
  cases out with
  | netFail =>
      simp [addInterview, addInterviewSharedPath, addInterviewCatch, addInterviewDB,
        hmode, hurl, hu, hfresh, mem_sortInterviews]
  | response status etagHdr body =>
      have hst : httpOk status = false := by
        simpa [remoteAppendFails] using hfail
      simp [addInterview, addInterviewSharedPath, addInterviewCatch, addInterviewDB,
        hmode, hurl, hu, hfresh, hst, mem_sortInterviews]

/-- Witness for C1: a concrete shared session whose PATCH gets HTTP 500. -/
theorem C1_add_remote_failure_keeps_record_witness :
    sampleRecord2 ∈ (addInterview baseState sampleRecord2
        (FetchOutcome.response 500 none (BinPayload.arr []))).state.localStore ∧
    (addInterview baseState sampleRecord2
        (FetchOutcome.response 500 none (BinPayload.arr []))).state.syncStatus
      = SyncStatus.error ∧
    sampleRecord2 ∈ (addInterview baseState sampleRecord2
        (FetchOutcome.response 500 none (BinPayload.arr []))).state.interviews :=
  C1_add_remote_failure_keeps_record baseState sampleRecord2
    (FetchOutcome.response 500 none (BinPayload.arr [])) "https://kvdb.io/bin1"
    rfl rfl (by decide) (by decide) (by decide)

/-- C4 counterexample: joining with confirmation required and declined is
NOT free of state change — the fetch inside `handleConnectSession` has
already recorded the new entity tag, so the freshness token differs from
its value before the call. -/
theorem C4_join_declined_etag_changes_cex :
    (handleConnectSession baseState ("https://kvdb.io/bin2") true
        (FetchOutcome.response 200 (some ("W/9")) (BinPayload.arr [])) false dbOk).state.etag
      ≠ baseState.etag := by
  decide

/-- C4 amended: when the fetch succeeds and the user declines, the
persisted association, dataset, Local Store, stored URL and session mode
are unchanged and the status returns to idle — but the sync error
message is cleared and the freshness token is overwritten with the entity
tag of the fetched response when one is present. -/
theorem C4_join_declined_state (s : AppState) (url : String) (status : Nat)
    (etagHdr : Option String) (records : List InterviewData) (env : DbEnv)
    (hurl : startsWithKvdb url = true)
    (hst : httpOk status = true) :
    (handleConnectSession s url true
        (FetchOutcome.response status etagHdr (BinPayload.arr records)) false env).state
      = { s with syncStatus := SyncStatus.idle, syncError := none, isLoading := false,
                 etag := (match etagHdr with | some t => some t | none => s.etag) } ∧
    (handleConnectSession s url true
        (FetchOutcome.response status etagHdr (BinPayload.arr records)) false env).outcome
      = Except.ok () := by
  cases etagHdr with
  | some t =>
      simp [handleConnectSession, getBinData, updateEtag, hurl, hst]
  | none =>
      simp [handleConnectSession, getBinData, updateEtag, hurl, hst]

/-- Witness for the amended C4. -/
theorem C4_join_declined_state_witness :
    (handleConnectSession baseState ("https://kvdb.io/bin2") true
        (FetchOutcome.response 200 (some ("W/7")) (BinPayload.arr [sampleRecord2])) false dbOk).state
      = { baseState with syncStatus := SyncStatus.idle, syncError := none, isLoading := false,
                         etag := (match some ("W/7") with
                                  | some t => some t
                                  | none => baseState.etag) } ∧
    (handleConnectSession baseState ("https://kvdb.io/bin2") true
        (FetchOutcome.response 200 (some ("W/7")) (BinPayload.arr [sampleRecord2])) false dbOk).outcome
      = Except.ok () :=
  C4_join_declined_state baseState ("https://kvdb.io/bin2") 200 (some ("W/7"))
    [sampleRecord2] dbOk (by decide) (by decide)

/-- C5 counterexample: when the remote overwrite rejects at the network
level, `clearInterviews` aborts before touching local state — the Local
Store and the in-memory dataset are NOT emptied. -/
theorem C5_clear_netfail_not_cleared_cex :
    (clearInterviews baseState FetchOutcome.netFail dbOk).1.localStore ≠ [] ∧
    (clearInterviews baseState FetchOutcome.netFail dbOk).1.interviews ≠ [] := by
  decide

/-- C5 amended: `clearInterviews` empties the Local Store and the
in-memory dataset whenever the local clear succeeds and, in a shared
session, the remote overwrite yields an HTTP response of any status; a
network-level rejection of the overwrite propagates before any local
change. -/
theorem C5_clear_empties_on_response (s : AppState) (out : FetchOutcome) (env : DbEnv)
    (hc : env.clearFails = false)
    (hnet : s.sessionMode = SessionMode.online → out ≠ FetchOutcome.netFail) :
    (clearInterviews s out env).1.localStore = [] ∧
    (clearInterviews s out env).1.interviews = [] := by
  unfold clearInterviews clearInterviewsLocalTail clearAllInterviewsDB
  by_cases hm : s.sessionMode = SessionMode.online
  · cases hsu : s.syncUrl with
    | none => simp [hm, hsu, hc]
    | some url =>
        cases out with
        | netFail => exact absurd rfl (hnet hm)
        | response status etagHdr body =>
            by_cases hue : url = ""
            · simp [hm, hsu, hue, hc]
            · by_cases hok : httpOk status = true
              · simp [hm, hsu, hue, hc, hok]
              · simp [hm, hsu, hue, hc, hok]
  · simp [hm, hc]

/-- Witness for the amended C5: clearing against a bin that answers 503. -/
theorem C5_clear_empties_on_response_witness :
    (clearInterviews baseState (FetchOutcome.response 503 none BinPayload.nonArray) dbOk).1.localStore = [] ∧
    (clearInterviews baseState (FetchOutcome.response 503 none BinPayload.nonArray) dbOk).1.interviews = [] :=
  C5_clear_empties_on_response baseState (FetchOutcome.response 503 none BinPayload.nonArray) dbOk
    rfl (fun _ h => by cases h)

/-- A shared-session state whose stored URL does not match the kvdb
capability-URL scheme. -/
def badUrlState : AppState :=
  { baseState with syncUrl := some ("http://evil.example/data"),
                   persistedUrl := some ("http://evil.example/data") }

/-- C6 counterexample: `addInterview` against a stored URL that does not
match the capability-URL scheme does NOT fail with an invalid-endpoint
error and DOES issue a network request — the PATCH goes straight to the
non-matching URL and the operation succeeds. -/
theorem C6_add_no_url_validation_cex :
    (addInterview badUrlState sampleRecord2
        (FetchOutcome.response 200 none (BinPayload.arr []))).requests
      = [⟨"PATCH", "http://evil.example/data"⟩] ∧
    (addInterview badUrlState sampleRecord2
        (FetchOutcome.response 200 none (BinPayload.arr []))).outcome = Except.ok () := by
  constructor
  · rfl
  · rfl

/-- C6 amended: only `handleConnectSession` validates the capability-URL
scheme — a non-matching URL there fails immediately with no request —
while `addInterview` in a shared session issues its PATCH to whatever URL
is stored, without any validation. -/
theorem C6_validation_only_at_join :
    (∀ (s : AppState) (url : String) (shouldConfirm : Bool) (out : FetchOutcome)
        (confirmed : Bool) (env : DbEnv), startsWithKvdb url = false →
      (handleConnectSession s url shouldConfirm out confirmed env).requests = [] ∧
      (handleConnectSession s url shouldConfirm out confirmed env).outcome
        = Except.error (AppError.err ("URL non valido."))) ∧
    (∀ (s : AppState) (r : InterviewData) (out : FetchOutcome) (u : String),
      s.sessionMode = SessionMode.online → s.syncUrl = some u → u ≠ "" →
      (addInterview s r out).requests = [⟨"PATCH", u⟩]) := by
  constructor
  · intro s url shouldConfirm out confirmed env hbad
    simp [handleConnectSession, hbad]
  · intro s r out u hmode hurl hu
    have hcatch : ∀ (s1 : AppState) (e : AppError),
        (addInterviewCatch s1 r e ⟨"PATCH", u⟩).requests = [(⟨"PATCH", u⟩ : Request)] := by
      intro s1 e
      rcases hdb : addInterviewDB s1.localStore r with e2 | st <;>
        simp [addInterviewCatch, hdb]
    cases out with
    | netFail =>
        simp [addInterview, addInterviewSharedPath, hmode, hurl, hu, hcatch]
    | response status etagHdr body =>
        rcases hdb : addInterviewDB s.localStore r with e2 | st
        · by_cases hok : httpOk status = true <;>
            simp [addInterview, addInterviewSharedPath, hmode, hurl, hu, hok, hdb, hcatch]
        · by_cases hok : httpOk status = true <;>
            simp [addInterview, addInterviewSharedPath, hmode, hurl, hu, hok, hdb, hcatch]

/-- Witness for the amended C6: both halves at concrete inputs. -/
theorem C6_validation_only_at_join_witness :
    ((handleConnectSession baseState ("http://evil.example/data") true FetchOutcome.netFail
        false dbOk).requests = [] ∧
     (handleConnectSession baseState ("http://evil.example/data") true FetchOutcome.netFail
        false dbOk).outcome = Except.error (AppError.err ("URL non valido."))) ∧
    (addInterview badUrlState sampleRecord FetchOutcome.netFail).requests
      = [⟨"PATCH", "http://evil.example/data"⟩] :=
  ⟨C6_validation_only_at_join.1 baseState ("http://evil.example/data") true
      FetchOutcome.netFail false dbOk (by decide),
    C6_validation_only_at_join.2 badUrlState sampleRecord FetchOutcome.netFail
      "http://evil.example/data" rfl rfl (by decide)⟩

/-- Two records sharing one id, so that the second insert of a bulk
replace fails with a duplicate-key constraint violation. -/
def dupRecordA : InterviewData :=
  ⟨"dup", Location.DARMIPARK, TravelMode.CAR, PaymentType.TICKET, 10, true, 100⟩

/-- Same id as `dupRecordA`, different payload. -/
def dupRecordB : InterviewData :=
  ⟨"dup", Location.PALAPARK, TravelMode.TPL, PaymentType.SUBSCRIPTION, 5, false, 200⟩

/-- C2 counterexample: the clear step succeeds, one individual insert
fails (duplicate key), and the operation does NOT report completion — it
rejects with the transaction failure, and the aborted transaction leaves
the store contents unchanged. -/
theorem C2_insert_failure_rejects_cex :
    replaceInterviewsDB [sampleRecord] [dupRecordA, dupRecordB] dbOk
      = ([sampleRecord],
          Except.error (AppError.strRejection ("Transaction failed while replacing interviews."))) := by
  rfl

/-- C2 amended: `replaceInterviewsDB` resolves exactly when the clear
succeeds and, for a non-empty list, every individual insert succeeds (no
duplicate id and no engine failure); on completion the store holds the
given records, and on any failure — of the clear or of an insert — the
transaction aborts and the store is unchanged. -/
theorem C2_replace_completion_characterized (store l : List InterviewData) (env : DbEnv) :
    ((replaceInterviewsDB store l env).2 = Except.ok () ↔
      env.clearFails = false ∧
        (l = [] ∨ (env.insertFails = false ∧ hasDupIds l = false))) ∧
    ((replaceInterviewsDB store l env).2 = Except.ok () →
      (replaceInterviewsDB store l env).1 = l) ∧
    ((replaceInterviewsDB store l env).2 ≠ Except.ok () →
      (replaceInterviewsDB store l env).1 = store) := by
  unfold replaceInterviewsDB
  by_cases hc : env.clearFails
  · simp [hc]
  · by_cases he : l.isEmpty
    · have hl : l = [] := List.isEmpty_iff.mp he
      simp [hc, he, hl]
    · have hl : l ≠ [] := by
        intro h
        exact he (by simp [h])
      by_cases hi : env.insertFails
      · simp [hc, he, hi, hl]
      · by_cases hd : hasDupIds l
        · simp [hc, he, hi, hd, hl]
        · simp [hc, he, hi, hd, hl]

/-- Witness for the amended C2 at a concrete duplicate-id bulk load. -/
theorem C2_replace_completion_characterized_witness :
    ((replaceInterviewsDB [sampleRecord] [dupRecordA, dupRecordB] dbOk).2 = Except.ok () ↔
      dbOk.clearFails = false ∧
        ([dupRecordA, dupRecordB] = [] ∨
          (dbOk.insertFails = false ∧ hasDupIds [dupRecordA, dupRecordB] = false))) ∧
    ((replaceInterviewsDB [sampleRecord] [dupRecordA, dupRecordB] dbOk).2 = Except.ok () →
      (replaceInterviewsDB [sampleRecord] [dupRecordA, dupRecordB] dbOk).1
        = [dupRecordA, dupRecordB]) ∧
    ((replaceInterviewsDB [sampleRecord] [dupRecordA, dupRecordB] dbOk).2 ≠ Except.ok () →
      (replaceInterviewsDB [sampleRecord] [dupRecordA, dupRecordB] dbOk).1 = [sampleRecord]) :=
  C2_replace_completion_characterized [sampleRecord] [dupRecordA, dupRecordB] dbOk

@[simp]
theorem updateEtag_interviews (s : AppState) (h : Option String) :
    (updateEtag s h).interviews = s.interviews := by
  cases h <;> rfl

@[simp]
theorem updateEtag_localStore (s : AppState) (h : Option String) :
    (updateEtag s h).localStore = s.localStore := by
  cases h <;> rfl

@[simp]
theorem updateEtag_remote (s : AppState) (h : Option String) :
    (updateEtag s h).remote = s.remote := by
  cases h <;> rfl

@[simp]
theorem updateEtag_syncStatus (s : AppState) (h : Option String) :
    (updateEtag s h).syncStatus = s.syncStatus := by
  cases h <;> rfl

@[simp]
theorem updateEtag_syncError (s : AppState) (h : Option String) :
    (updateEtag s h).syncError = s.syncError := by
  cases h <;> rfl

/-- The local tails of `replaceInterviews []` and `clearInterviews` agree
on dataset, store and bin whenever their incoming states do. -/
theorem tails_eq (a b : AppState) (env : DbEnv)
    (h1 : a.interviews = b.interviews) (h2 : a.localStore = b.localStore)
    (h3 : a.remote = b.remote) :
    (replaceInterviewsLocalTail a [] env).1.interviews
        = (clearInterviewsLocalTail b env).1.interviews ∧
    (replaceInterviewsLocalTail a [] env).1.localStore
        = (clearInterviewsLocalTail b env).1.localStore ∧
    (replaceInterviewsLocalTail a [] env).1.remote
        = (clearInterviewsLocalTail b env).1.remote := by
  unfold replaceInterviewsLocalTail clearInterviewsLocalTail replaceInterviewsDB
    clearAllInterviewsDB
  by_cases hc : env.clearFails <;> simp [hc, h1, h2, h3]

/-- C8: replacing with the empty list and clearing leave the same end
state on the three claimed components (in-memory dataset, Local Store,
remote bin) for every session state and environment outcome; and when the
local clear succeeds and the remote overwrite (if any) yields an HTTP
response, both leave an empty dataset and an empty Local Store — with an
empty remote array when the shared overwrite carried a success status. -/
theorem C8_replace_empty_equiv_clear :
    (∀ (s : AppState) (out : FetchOutcome) (env : DbEnv),
      (replaceInterviews s [] out env).1.interviews = (clearInterviews s out env).1.interviews ∧
      (replaceInterviews s [] out env).1.localStore = (clearInterviews s out env).1.localStore ∧
      (replaceInterviews s [] out env).1.remote = (clearInterviews s out env).1.remote) ∧
    (∀ (s : AppState) (env : DbEnv) (status : Nat) (etagHdr : Option String) (body : BinPayload),
      env.clearFails = false →
      (replaceInterviews s [] (FetchOutcome.response status etagHdr body) env).1.interviews = [] ∧
      (replaceInterviews s [] (FetchOutcome.response status etagHdr body) env).1.localStore = [] ∧
      (clearInterviews s (FetchOutcome.response status etagHdr body) env).1.interviews = [] ∧
      (clearInterviews s (FetchOutcome.response status etagHdr body) env).1.localStore = [] ∧
      (s.sessionMode = SessionMode.online → truthy s.syncUrl = true → httpOk status = true →
        (replaceInterviews s [] (FetchOutcome.response status etagHdr body) env).1.remote = [] ∧
        (clearInterviews s (FetchOutcome.response status etagHdr body) env).1.remote = [])) := by
  constructor
  · intro s out env
    by_cases hm : s.sessionMode = SessionMode.online
    · cases hsu : s.syncUrl with
      | none =>
          simp only [replaceInterviews, clearInterviews, hm, hsu, if_true, if_pos]
          exact tails_eq s s env rfl rfl rfl
      | some url =>
          by_cases hue : url = ""
          · simp only [replaceInterviews, clearInterviews, hm, hsu, hue, if_true, if_pos]
            exact tails_eq s s env rfl rfl rfl
          · cases out with
            | netFail =>
                simp [replaceInterviews, clearInterviews, hm, hsu, hue]
            | response status etagHdr body =>
                by_cases hok : httpOk status = true
                · simp only [replaceInterviews, clearInterviews, hm, hsu, hue, hok,
                    if_true, if_pos, if_neg, Bool.false_eq_true, not_false_eq_true]
                  exact tails_eq _ _ env (by simp) (by simp) (by simp [sortInterviews])
                · simp only [replaceInterviews, clearInterviews, hm, hsu, hue, hok,
                    if_true, if_pos, if_neg, Bool.false_eq_true, not_false_eq_true]
                  exact tails_eq _ _ env (by simp) (by simp) (by simp)
    · simp only [replaceInterviews, clearInterviews, hm, if_neg, if_false]
      exact tails_eq s s env rfl rfl rfl
  · intro s env status etagHdr body hc
    by_cases hm : s.sessionMode = SessionMode.online
    · cases hsu : s.syncUrl with
      | none =>
          simp [replaceInterviews, clearInterviews, replaceInterviewsLocalTail,
            clearInterviewsLocalTail, replaceInterviewsDB, clearAllInterviewsDB,
            hm, hsu, hc, truthy, sortInterviews]
      | some url =>
          by_cases hue : url = ""
          · simp [replaceInterviews, clearInterviews, replaceInterviewsLocalTail,
              clearInterviewsLocalTail, replaceInterviewsDB, clearAllInterviewsDB,
              hm, hsu, hue, hc, truthy, sortInterviews]
          · by_cases hok : httpOk status = true
            · simp [replaceInterviews, clearInterviews, replaceInterviewsLocalTail,
                clearInterviewsLocalTail, replaceInterviewsDB, clearAllInterviewsDB,
                hm, hsu, hue, hc, hok, truthy, sortInterviews]
            · simp [replaceInterviews, clearInterviews, replaceInterviewsLocalTail,
                clearInterviewsLocalTail, replaceInterviewsDB, clearAllInterviewsDB,
                hm, hsu, hue, hc, hok, truthy, sortInterviews]
    · simp [replaceInterviews, clearInterviews, replaceInterviewsLocalTail,
        clearInterviewsLocalTail, replaceInterviewsDB, clearAllInterviewsDB,
        hm, hc, truthy, sortInterviews]

/-- Witness for C8 at a concrete shared session answering HTTP 201. -/
theorem C8_replace_empty_equiv_clear_witness :
    ((replaceInterviews baseState [] (FetchOutcome.response 201 none BinPayload.nonArray) dbOk).1.interviews
        = (clearInterviews baseState (FetchOutcome.response 201 none BinPayload.nonArray) dbOk).1.interviews ∧
      (replaceInterviews baseState [] (FetchOutcome.response 201 none BinPayload.nonArray) dbOk).1.localStore
        = (clearInterviews baseState (FetchOutcome.response 201 none BinPayload.nonArray) dbOk).1.localStore ∧
      (replaceInterviews baseState [] (FetchOutcome.response 201 none BinPayload.nonArray) dbOk).1.remote
        = (clearInterviews baseState (FetchOutcome.response 201 none BinPayload.nonArray) dbOk).1.remote) ∧
    (replaceInterviews baseState [] (FetchOutcome.response 201 none BinPayload.nonArray) dbOk).1.interviews = [] ∧
    (replaceInterviews baseState [] (FetchOutcome.response 201 none BinPayload.nonArray) dbOk).1.localStore = [] ∧
    (replaceInterviews baseState [] (FetchOutcome.response 201 none BinPayload.nonArray) dbOk).1.remote = [] :=
  ⟨C8_replace_empty_equiv_clear.1 baseState (FetchOutcome.response 201 none BinPayload.nonArray) dbOk,
    (C8_replace_empty_equiv_clear.2 baseState dbOk 201 none BinPayload.nonArray rfl).1,
    (C8_replace_empty_equiv_clear.2 baseState dbOk 201 none BinPayload.nonArray rfl).2.1,
    ((C8_replace_empty_equiv_clear.2 baseState dbOk 201 none BinPayload.nonArray rfl).2.2.2.2
      rfl rfl (by decide)).1⟩

/-- C10: in a shared session, `replaceInterviews` never touches the sync
status or the sync error message — the remote overwrite response is never
checked, so this holds for any HTTP status, success or not — while the
Local Store and the in-memory dataset are still overwritten with the new
sorted records (provided the local bulk replace itself succeeds: clear
succeeds, no duplicate ids, no engine insert failure). -/
theorem C10_replace_frame (s : AppState) (l : List InterviewData) (u : String)
    (status : Nat) (etagHdr : Option String) (body : BinPayload) (env : DbEnv)
    (hmode : s.sessionMode = SessionMode.online) (hurl : s.syncUrl = some u) (hu : u ≠ "")
    (hc : env.clearFails = false) (hi : env.insertFails = false)
    (hd : hasDupIds (sortInterviews l) = false) :
    (replaceInterviews s l (FetchOutcome.response status etagHdr body) env).1.syncStatus
        = s.syncStatus ∧
    (replaceInterviews s l (FetchOutcome.response status etagHdr body) env).1.syncError
        = s.syncError ∧
    (replaceInterviews s l (FetchOutcome.response status etagHdr body) env).1.localStore
        = sortInterviews l ∧
    (replaceInterviews s l (FetchOutcome.response status etagHdr body) env).1.interviews
        = sortInterviews l := by
  by_cases he : (sortInterviews l).isEmpty
  · have hl : sortInterviews l = [] := List.isEmpty_iff.mp he
    by_cases hok : httpOk status = true <;>
      simp [replaceInterviews, replaceInterviewsLocalTail, replaceInterviewsDB,
        hmode, hurl, hu, hc, hi, hd, hok, he, hl]
  · by_cases hok : httpOk status = true <;>
      simp [replaceInterviews, replaceInterviewsLocalTail, replaceInterviewsDB,
        hmode, hurl, hu, hc, hi, hd, hok, he]

/-- Witness for C10: a concrete shared session whose overwrite POST gets
HTTP 500 while the list is replaced locally. -/
theorem C10_replace_frame_witness :
    (replaceInterviews baseState [sampleRecord2]
        (FetchOutcome.response 500 (some ("W/5")) BinPayload.nonArray) dbOk).1.syncStatus
      = baseState.syncStatus ∧
    (replaceInterviews baseState [sampleRecord2]
        (FetchOutcome.response 500 (some ("W/5")) BinPayload.nonArray) dbOk).1.syncError
      = baseState.syncError ∧
    (replaceInterviews baseState [sampleRecord2]
        (FetchOutcome.response 500 (some ("W/5")) BinPayload.nonArray) dbOk).1.localStore
      = sortInterviews [sampleRecord2] ∧
    (replaceInterviews baseState [sampleRecord2]
        (FetchOutcome.response 500 (some ("W/5")) BinPayload.nonArray) dbOk).1.interviews
      = sortInterviews [sampleRecord2] :=
  C10_replace_frame baseState [sampleRecord2] "https://kvdb.io/bin1" 500 (some ("W/5"))
    BinPayload.nonArray dbOk rfl rfl (by decide) rfl rfl (by decide)
